import Mathlib

/-!
Shallow embedding of the python-nes-emulation repository
(`cpu.py`, `ppu.py`, `cpu_helper.py`, `byte_math.py`, `opcodes6502.py`).

Python integers are unbounded, so registers that the source manipulates
with plain `+`/`-` (PC, SP, A, X, Y, addresses) are modelled as `Int`;
memory cells (a `bytearray`) hold `Nat` values.  Python's `x % n` on
ints is `Int.emod` (result has the sign of `n`), `x // n` is `Int.fdiv`
(floor division), `x >> k` is floor division by `2 ^ k`, `x & 0xFF` for
any int is `x % 0x100`, and `x & ~m` for non-negative `x` is
`pyAndNot x m = x - (x &&& m)`.  Code paths that raise a Python exception (or, for the
PPU, return `None` from a register read) are modelled with `Option`.
-/

namespace NES

/-- ppu.py `REGISTERS`: the CPU addresses forwarded to the PPU. -/
def REGISTERS : List Nat :=
  [0x2000, 0x2001, 0x2002, 0x2003, 0x2004, 0x2005, 0x2006, 0x2007, 0x4014]

/-- ppu.py frame constant. -/
def SCANLINES_PER_FRAME : Nat := 262

/-- ppu.py frame constant. -/
def CYCLES_PER_SCANLINE : Nat := 341

/-- ppu.py `CYCLES_PER_FRAME = CYCLES_PER_SCANLINE * SCANLINES_PER_FRAME`. -/
def CYCLES_PER_FRAME : Nat := CYCLES_PER_SCANLINE * SCANLINES_PER_FRAME

/-- ppu.py `CYCLE_POSTRENDER = 240 * CYCLES_PER_SCANLINE`. -/
def CYCLE_POSTRENDER : Nat := 240 * CYCLES_PER_SCANLINE

/-- ppu.py `CYCLE_VBLANK = 241 * CYCLES_PER_SCANLINE`. -/
def CYCLE_VBLANK : Nat := 241 * CYCLES_PER_SCANLINE

/-- Python `x & ~mask` for a non-negative `x`: the bits of `x &&& mask`
form a sub-mask of `x`, so subtracting them clears exactly those bits,
and the kernel can evaluate the result. -/
def pyAndNot (x mask : Nat) : Nat := x - (x &&& mask)

/-- ppu.py `class PPU`: the registers and cycle counter of the PPU stub. -/
structure PPU where
  control : Nat
  mask : Nat
  status : Nat
  cycles : Nat
deriving Repr, DecidableEq

/-- ppu.py `PPU.__init__` together with the class-attribute defaults. -/
def PPU.init : PPU := ⟨0x00, 0x00, 0x00, 0⟩

/-- ppu.py `PPU.handle_read`: only 0x2002 returns a value; every other
address falls off the end of the `if` chain, i.e. returns Python `None`,
modelled as `none`. -/
def PPU.handle_read (p : PPU) (addr : Nat) : Option Nat :=
  if addr = 0x2002 then some p.status else none

/-- ppu.py `PPU.handle_write`. -/
def PPU.handle_write (p : PPU) (addr data : Nat) : PPU :=
  if addr = 0x2000 then { p with control := data }
  else if addr = 0x2001 then { p with mask := data }
  else p

/-- ppu.py `PPU.run`: one PPU tick.  `self.status &= ~0x80` on a
non-negative int clears bit 7, i.e. `pyAndNot status 0x80`.  When the
VBlank start cycle is reached with NMI enabled the source calls
`cpu.handle_nmi()`, which unconditionally raises: modelled as `none`. -/
def PPU.run (p : PPU) : Option PPU :=
  if p.cycles % CYCLES_PER_FRAME > CYCLE_POSTRENDER then
    if p.cycles % CYCLES_PER_FRAME = CYCLE_VBLANK ∧ p.control &&& 0x80 ≠ 0 then
      none
    else
      some { p with status := p.status ||| 0x80, cycles := p.cycles + 1 }
  else
    some { p with status := pyAndNot p.status 0x80, cycles := p.cycles + 1 }

/-- cpu.py `class Flag` constants. -/
def Flag.N : Nat := 128
/-- cpu.py `Flag.V`. -/
def Flag.V : Nat := 64
/-- cpu.py `Flag._` (the unused/reserved bit; `_` is not a valid Lean name). -/
def Flag.U : Nat := 32
/-- cpu.py `Flag.B`. -/
def Flag.B : Nat := 16
/-- cpu.py `Flag.D`. -/
def Flag.D : Nat := 8
/-- cpu.py `Flag.I`. -/
def Flag.I : Nat := 4
/-- cpu.py `Flag.Z`. -/
def Flag.Z : Nat := 2
/-- cpu.py `Flag.C`. -/
def Flag.C : Nat := 1

/-- cpu.py `Flag.INIT_FLAGS = [_, I]`. -/
def Flag.INIT_FLAGS : List Nat := [Flag.U, Flag.I]

/-- cpu.py `class Flag`: the processor status is kept as the list of
currently enabled flag values (`enabled_flags`). -/
structure Flag where
  enabled_flags : List Nat
deriving Repr, DecidableEq

/-- cpu.py `Flag.get_byte`: `sum(self.enabled_flags)`. -/
def Flag.get_byte (f : Flag) : Nat := f.enabled_flags.sum

/-- cpu.py `Flag.isset`: `flag in self.enabled_flags`. -/
def Flag.isset (f : Flag) (flag : Nat) : Bool := f.enabled_flags.contains flag

/-- cpu.py `Flag.set`: append the flag if not already present. -/
def Flag.set (f : Flag) (flag : Nat) : Flag :=
  if f.isset flag then f else ⟨f.enabled_flags ++ [flag]⟩

/-- cpu.py `Flag.clear`: remove the first occurrence if present. -/
def Flag.clear (f : Flag) (flag : Nat) : Flag :=
  if f.isset flag then ⟨f.enabled_flags.erase flag⟩ else f

/-- cpu.py `Flag.set_byte`: reset `enabled_flags` to `INIT_FLAGS[:]` and
then set each flag whose bit is on in `byte`, in source order.  (The
method discards the previous flag state entirely, so it is a function of
the byte alone.) -/
def Flag.set_byte (byte : Nat) : Flag :=
  let f : Flag := ⟨Flag.INIT_FLAGS⟩
  let f := if byte &&& Flag.N ≠ 0 then f.set Flag.N else f
  let f := if byte &&& Flag.V ≠ 0 then f.set Flag.V else f
  let f := if byte &&& Flag.U ≠ 0 then f.set Flag.U else f
  let f := if byte &&& Flag.B ≠ 0 then f.set Flag.B else f
  let f := if byte &&& Flag.D ≠ 0 then f.set Flag.D else f
  let f := if byte &&& Flag.I ≠ 0 then f.set Flag.I else f
  let f := if byte &&& Flag.Z ≠ 0 then f.set Flag.Z else f
  let f := if byte &&& Flag.C ≠ 0 then f.set Flag.C else f
  f

/-- cpu.py `class Memory` plus the PPU it forwards to (the source wires
the PPU into the memory object via `_set_ppu`; here the pair travels
together as the bus). -/
structure Bus where
  mem : Nat → Nat
  is_mirror : Bool
  ppu : PPU

/-- cpu.py `Memory.page_num`: `addr // 0xFF` — note the divisor is 0xFF
(255), not 0x100, and Python `//` is floor division. -/
def page_num (addr : Int) : Int := Int.fdiv addr 0xFF

/-- cpu.py `Memory.map_byte`. -/
def Bus.map_byte (b : Bus) (byte : Nat) : Nat :=
  if byte ≤ 0x1FFF then byte % 0x0800
  else if 0x2000 ≤ byte ∧ byte ≤ 0x3FFF then ((byte - 0x2000) % 0x08) + 0x2000
  else if b.is_mirror ∧ 0xC000 ≤ byte ∧ byte ≤ 0xFFFF then byte - 0x4000
  else byte

/-- cpu.py `Memory.read`: map the address; a mapped address in the PPU
register set is forwarded to `PPU.handle_read` with the ORIGINAL
(unmapped) address, exactly as the source does. -/
def Bus.read (b : Bus) (byte : Nat) : Option Nat :=
  let mapped := b.map_byte byte
  if mapped ∈ REGISTERS then b.ppu.handle_read byte
  else some (b.mem mapped)

/-- cpu.py `Memory.write`: writes at or above 0x8000 return immediately
(only printing a diagnostic); PPU registers are forwarded with the
original address; otherwise the cell at the mapped address is set to
`data % 0x100`. -/
def Bus.write (b : Bus) (byte : Nat) (data : Nat) : Bus :=
  if 0x8000 ≤ byte then b
  else
    let mapped := b.map_byte byte
    if mapped ∈ REGISTERS then { b with ppu := b.ppu.handle_write byte data }
    else { b with mem := fun a => if a = mapped then data % 0x100 else b.mem a }

/-- byte_math.py `signed_byte_to_int`:
`-(byte & mask) + (byte & ~mask)` with `mask = 2**(byte_len-1)`;
`byte & ~mask` on a non-negative int is `pyAndNot byte mask`. -/
def signed_byte_to_int (byte : Nat) (byte_len : Nat) : Int :=
  let mask : Nat := 2 ^ (byte_len - 1);
  -((byte &&& mask : Nat) : Int) + ((pyAndNot byte mask : Nat) : Int)

/-- opcodes6502.py entry format: mnemonic, instruction length in bytes,
base cycle count, additional cycles if a page boundary is crossed. -/
structure Instr where
  mnemonic : String
  len : Nat
  cyc : Nat
  cross : Nat
deriving Repr, DecidableEq

/-- opcodes6502.py `opcodes`: the dictionary, transcribed entry for entry
(mnemonic, length, cycles, page-cross extra); split into parts only to
keep elaboration fast. -/
def opcodesPart0 : List (Nat × Instr) := [
  (0x69, ⟨"ADC", 2, 2, 0⟩),
  (0x65, ⟨"ADC", 2, 3, 0⟩),
  (0x75, ⟨"ADC", 2, 4, 0⟩),
  (0x6D, ⟨"ADC", 3, 4, 0⟩),
  (0x7D, ⟨"ADC", 3, 4, 1⟩),
  (0x79, ⟨"ADC", 3, 4, 1⟩),
  (0x61, ⟨"ADC", 2, 6, 0⟩),
  (0x71, ⟨"ADC", 2, 5, 1⟩),
  (0x29, ⟨"AND", 2, 2, 0⟩),
  (0x25, ⟨"AND", 2, 3, 0⟩),
  (0x35, ⟨"AND", 2, 4, 0⟩),
  (0x2D, ⟨"AND", 3, 4, 0⟩),
  (0x3D, ⟨"AND", 3, 4, 1⟩),
  (0x39, ⟨"AND", 3, 4, 1⟩),
  (0x21, ⟨"AND", 2, 6, 0⟩),
  (0x31, ⟨"AND", 2, 5, 1⟩),
  (0x0A, ⟨"ASL", 1, 2, 0⟩),
  (0x06, ⟨"ASL", 2, 5, 0⟩),
  (0x16, ⟨"ASL", 2, 6, 0⟩),
  (0x0E, ⟨"ASL", 3, 6, 0⟩),
  (0x1E, ⟨"ASL", 3, 7, 0⟩),
  (0x24, ⟨"BIT", 2, 3, 0⟩),
  (0x2C, ⟨"BIT", 3, 4, 0⟩),
  (0x10, ⟨"BPL", 2, 2, 1⟩),
  (0x30, ⟨"BMI", 2, 2, 1⟩),
  (0x50, ⟨"BVC", 2, 2, 1⟩),
  (0x70, ⟨"BVS", 2, 2, 1⟩),
  (0x90, ⟨"BCC", 2, 2, 1⟩),
  (0xB0, ⟨"BCS", 2, 2, 1⟩),
  (0xD0, ⟨"BNE", 2, 2, 1⟩),
  (0xF0, ⟨"BEQ", 2, 2, 1⟩),
  (0x00, ⟨"BRK", 1, 7, 0⟩),
  (0xC9, ⟨"CMP", 2, 2, 0⟩),
  (0xC5, ⟨"CMP", 2, 3, 0⟩),
  (0xD5, ⟨"CMP", 2, 4, 0⟩),
  (0xCD, ⟨"CMP", 3, 4, 0⟩),
  (0xDD, ⟨"CMP", 3, 4, 1⟩),
  (0xD9, ⟨"CMP", 3, 4, 1⟩),
  (0xC1, ⟨"CMP", 2, 6, 0⟩),
  (0xD1, ⟨"CMP", 2, 5, 1⟩),
  (0xE0, ⟨"CPX", 2, 2, 0⟩),
  (0xE4, ⟨"CPX", 2, 3, 0⟩),
  (0xEC, ⟨"CPX", 3, 4, 0⟩),
  (0xC0, ⟨"CPY", 2, 2, 0⟩),
  (0xC4, ⟨"CPY", 2, 3, 0⟩),
  (0xCC, ⟨"CPY", 3, 4, 0⟩),
  (0xC6, ⟨"DEC", 2, 5, 0⟩),
  (0xD6, ⟨"DEC", 2, 6, 0⟩),
  (0xCE, ⟨"DEC", 3, 6, 0⟩),
  (0xDE, ⟨"DEC", 3, 7, 0⟩)]

/-- opcodes6502.py `opcodes`, continued (transcribed in table order). -/
def opcodesPart1 : List (Nat × Instr) := [
  (0x49, ⟨"EOR", 2, 2, 0⟩),
  (0x45, ⟨"EOR", 2, 3, 0⟩),
  (0x55, ⟨"EOR", 2, 4, 0⟩),
  (0x4D, ⟨"EOR", 3, 4, 0⟩),
  (0x5D, ⟨"EOR", 3, 4, 1⟩),
  (0x59, ⟨"EOR", 3, 4, 1⟩),
  (0x41, ⟨"EOR", 2, 6, 0⟩),
  (0x51, ⟨"EOR", 2, 5, 1⟩),
  (0x18, ⟨"CLC", 1, 2, 0⟩),
  (0x38, ⟨"SEC", 1, 2, 0⟩),
  (0x58, ⟨"CLI", 1, 2, 0⟩),
  (0x78, ⟨"SEI", 1, 2, 0⟩),
  (0xB8, ⟨"CLV", 1, 2, 0⟩),
  (0xD8, ⟨"CLD", 1, 2, 0⟩),
  (0xF8, ⟨"SED", 1, 2, 0⟩),
  (0xE6, ⟨"INC", 2, 5, 0⟩),
  (0xF6, ⟨"INC", 2, 6, 0⟩),
  (0xEE, ⟨"INC", 3, 6, 0⟩),
  (0xFE, ⟨"INC", 3, 7, 0⟩),
  (0x4C, ⟨"JMP", 3, 3, 0⟩),
  (0x6C, ⟨"JMP", 3, 5, 0⟩),
  (0x20, ⟨"JSR", 3, 6, 0⟩),
  (0xA9, ⟨"LDA", 2, 2, 0⟩),
  (0xA5, ⟨"LDA", 2, 3, 0⟩),
  (0xB5, ⟨"LDA", 2, 4, 0⟩),
  (0xAD, ⟨"LDA", 3, 4, 0⟩),
  (0xBD, ⟨"LDA", 3, 4, 1⟩),
  (0xB9, ⟨"LDA", 3, 4, 1⟩),
  (0xA1, ⟨"LDA", 2, 6, 0⟩),
  (0xB1, ⟨"LDA", 2, 5, 1⟩),
  (0xA2, ⟨"LDX", 2, 2, 0⟩),
  (0xA6, ⟨"LDX", 2, 3, 0⟩),
  (0xB6, ⟨"LDX", 2, 4, 0⟩),
  (0xAE, ⟨"LDX", 3, 4, 0⟩),
  (0xBE, ⟨"LDX", 3, 4, 1⟩),
  (0xA0, ⟨"LDY", 2, 2, 0⟩),
  (0xA4, ⟨"LDY", 2, 3, 0⟩),
  (0xB4, ⟨"LDY", 2, 4, 0⟩),
  (0xAC, ⟨"LDY", 3, 4, 0⟩),
  (0xBC, ⟨"LDY", 3, 4, 1⟩),
  (0x4A, ⟨"LSR", 1, 2, 0⟩),
  (0x46, ⟨"LSR", 2, 5, 0⟩),
  (0x56, ⟨"LSR", 2, 6, 0⟩),
  (0x4E, ⟨"LSR", 3, 6, 0⟩),
  (0x5E, ⟨"LSR", 3, 7, 0⟩),
  (0xEA, ⟨"NOP", 1, 2, 0⟩),
  (0x09, ⟨"ORA", 2, 2, 0⟩),
  (0x05, ⟨"ORA", 2, 3, 0⟩),
  (0x15, ⟨"ORA", 2, 4, 0⟩),
  (0x0D, ⟨"ORA", 3, 4, 0⟩)]

/-- opcodes6502.py `opcodes`, continued (transcribed in table order). -/
def opcodesPart2 : List (Nat × Instr) := [
  (0x1D, ⟨"ORA", 3, 4, 1⟩),
  (0x19, ⟨"ORA", 3, 4, 1⟩),
  (0x01, ⟨"ORA", 2, 6, 0⟩),
  (0x11, ⟨"ORA", 2, 5, 1⟩),
  (0xAA, ⟨"TAX", 1, 2, 0⟩),
  (0x8A, ⟨"TXA", 1, 2, 0⟩),
  (0xCA, ⟨"DEX", 1, 2, 0⟩),
  (0xE8, ⟨"INX", 1, 2, 0⟩),
  (0xA8, ⟨"TAY", 1, 2, 0⟩),
  (0x98, ⟨"TYA", 1, 2, 0⟩),
  (0x88, ⟨"DEY", 1, 2, 0⟩),
  (0xC8, ⟨"INY", 1, 2, 0⟩),
  (0x2A, ⟨"ROL", 1, 2, 0⟩),
  (0x26, ⟨"ROL", 2, 5, 0⟩),
  (0x36, ⟨"ROL", 2, 6, 0⟩),
  (0x2E, ⟨"ROL", 3, 6, 0⟩),
  (0x3E, ⟨"ROL", 3, 7, 0⟩),
  (0x6A, ⟨"ROR", 1, 2, 0⟩),
  (0x66, ⟨"ROR", 2, 5, 0⟩),
  (0x76, ⟨"ROR", 2, 6, 0⟩),
  (0x6E, ⟨"ROR", 3, 6, 0⟩),
  (0x7E, ⟨"ROR", 3, 7, 0⟩),
  (0x40, ⟨"RTI", 1, 6, 0⟩),
  (0x60, ⟨"RTS", 1, 6, 0⟩),
  (0xE9, ⟨"SBC", 2, 2, 0⟩),
  (0xE5, ⟨"SBC", 2, 3, 0⟩),
  (0xF5, ⟨"SBC", 2, 4, 0⟩),
  (0xED, ⟨"SBC", 3, 4, 0⟩),
  (0xFD, ⟨"SBC", 3, 4, 1⟩),
  (0xF9, ⟨"SBC", 3, 4, 1⟩),
  (0xE1, ⟨"SBC", 2, 6, 0⟩),
  (0xF1, ⟨"SBC", 2, 5, 1⟩),
  (0x85, ⟨"STA", 2, 3, 0⟩),
  (0x95, ⟨"STA", 2, 4, 0⟩),
  (0x8D, ⟨"STA", 3, 4, 0⟩),
  (0x9D, ⟨"STA", 3, 5, 0⟩),
  (0x99, ⟨"STA", 3, 5, 0⟩),
  (0x81, ⟨"STA", 2, 6, 0⟩),
  (0x91, ⟨"STA", 2, 6, 0⟩),
  (0x9A, ⟨"TXS", 1, 2, 0⟩),
  (0xBA, ⟨"TSX", 1, 2, 0⟩),
  (0x48, ⟨"PHA", 1, 3, 0⟩),
  (0x68, ⟨"PLA", 1, 4, 0⟩),
  (0x08, ⟨"PHP", 1, 3, 0⟩),
  (0x28, ⟨"PLP", 1, 4, 0⟩),
  (0x86, ⟨"STX", 2, 3, 0⟩),
  (0x96, ⟨"STX", 2, 4, 0⟩),
  (0x8E, ⟨"STX", 3, 4, 0⟩),
  (0x84, ⟨"STY", 2, 3, 0⟩),
  (0x94, ⟨"STY", 2, 4, 0⟩)]

/-- opcodes6502.py `opcodes`, continued (transcribed in table order). -/
def opcodesPart3 : List (Nat × Instr) := [
  (0x8C, ⟨"STY", 3, 4, 0⟩),
  (0x07, ⟨"iSLO", 2, 5, 0⟩),
  (0x17, ⟨"iSLO", 2, 6, 0⟩),
  (0x03, ⟨"iSLO", 2, 8, 0⟩),
  (0x13, ⟨"iSLO", 2, 8, 0⟩),
  (0x0F, ⟨"iSLO", 3, 6, 0⟩),
  (0x1F, ⟨"iSLO", 3, 7, 0⟩),
  (0x1B, ⟨"iSLO", 3, 7, 0⟩),
  (0x27, ⟨"iRLA", 2, 5, 0⟩),
  (0x37, ⟨"iRLA", 2, 6, 0⟩),
  (0x23, ⟨"iRLA", 2, 8, 0⟩),
  (0x33, ⟨"iRLA", 2, 8, 0⟩),
  (0x2F, ⟨"iRLA", 3, 6, 0⟩),
  (0x3F, ⟨"iRLA", 3, 7, 0⟩),
  (0x3B, ⟨"iRLA", 3, 7, 0⟩),
  (0x47, ⟨"iSRE", 2, 5, 0⟩),
  (0x57, ⟨"iSRE", 2, 6, 0⟩),
  (0x43, ⟨"iSRE", 2, 8, 0⟩),
  (0x53, ⟨"iSRE", 2, 8, 0⟩),
  (0x4F, ⟨"iSRE", 3, 6, 0⟩),
  (0x5F, ⟨"iSRE", 3, 7, 0⟩),
  (0x5B, ⟨"iSRE", 3, 7, 0⟩),
  (0x67, ⟨"iRRA", 2, 5, 0⟩),
  (0x77, ⟨"iRRA", 2, 6, 0⟩),
  (0x63, ⟨"iRRA", 2, 8, 0⟩),
  (0x73, ⟨"iRRA", 2, 8, 0⟩),
  (0x6F, ⟨"iRRA", 3, 6, 0⟩),
  (0x7F, ⟨"iRRA", 3, 7, 0⟩),
  (0x7B, ⟨"iRRA", 3, 7, 0⟩),
  (0x87, ⟨"iSAX", 2, 3, 0⟩),
  (0x97, ⟨"iSAX", 2, 4, 0⟩),
  (0x83, ⟨"iSAX", 2, 6, 0⟩),
  (0x8F, ⟨"iSAX", 3, 4, 0⟩),
  (0xA7, ⟨"iLAX", 2, 3, 0⟩),
  (0xB7, ⟨"iLAX", 2, 4, 0⟩),
  (0xA3, ⟨"iLAX", 2, 6, 0⟩),
  (0xB3, ⟨"iLAX", 2, 5, 1⟩),
  (0xAF, ⟨"iLAX", 3, 4, 0⟩),
  (0xBF, ⟨"iLAX", 3, 4, 1⟩),
  (0xC7, ⟨"iDCP", 2, 5, 0⟩),
  (0xD7, ⟨"iDCP", 2, 6, 0⟩),
  (0xC3, ⟨"iDCP", 2, 8, 0⟩),
  (0xD3, ⟨"iDCP", 2, 8, 0⟩),
  (0xCF, ⟨"iDCP", 3, 6, 0⟩),
  (0xDF, ⟨"iDCP", 3, 7, 0⟩),
  (0xDB, ⟨"iDCP", 3, 7, 0⟩),
  (0xE7, ⟨"iISC", 2, 5, 0⟩),
  (0xF7, ⟨"iISC", 2, 6, 0⟩),
  (0xE3, ⟨"iISC", 2, 8, 0⟩),
  (0xF3, ⟨"iISC", 2, 8, 0⟩)]

/-- opcodes6502.py `opcodes`, continued (transcribed in table order). -/
def opcodesPart4 : List (Nat × Instr) := [
  (0xEF, ⟨"iISC", 3, 6, 0⟩),
  (0xFF, ⟨"iISC", 3, 7, 0⟩),
  (0xFB, ⟨"iISC", 3, 7, 0⟩),
  (0x0B, ⟨"iANC", 2, 2, 0⟩),
  (0x2B, ⟨"iANC", 2, 2, 0⟩),
  (0x4B, ⟨"iALR", 2, 2, 0⟩),
  (0x6B, ⟨"iARR", 2, 2, 0⟩),
  (0xCB, ⟨"iSBX", 2, 2, 0⟩),
  (0xEB, ⟨"iSBC", 2, 2, 0⟩),
  (0xBB, ⟨"iLAS", 3, 4, 1⟩),
  (0x1A, ⟨"iNOP", 1, 2, 0⟩),
  (0x3A, ⟨"iNOP", 1, 2, 0⟩),
  (0x5A, ⟨"iNOP", 1, 2, 0⟩),
  (0x7A, ⟨"iNOP", 1, 2, 0⟩),
  (0xDA, ⟨"iNOP", 1, 2, 0⟩),
  (0xFA, ⟨"iNOP", 1, 2, 0⟩),
  (0x80, ⟨"iNOP", 2, 2, 0⟩),
  (0x82, ⟨"iNOP", 2, 2, 0⟩),
  (0xC2, ⟨"iNOP", 2, 2, 0⟩),
  (0xE2, ⟨"iNOP", 2, 2, 0⟩),
  (0x89, ⟨"iNOP", 2, 2, 0⟩),
  (0x04, ⟨"iNOP", 2, 3, 0⟩),
  (0x44, ⟨"iNOP", 2, 3, 0⟩),
  (0x64, ⟨"iNOP", 2, 3, 0⟩),
  (0x14, ⟨"iNOP", 2, 4, 0⟩),
  (0x34, ⟨"iNOP", 2, 4, 0⟩),
  (0x54, ⟨"iNOP", 2, 4, 0⟩),
  (0x74, ⟨"iNOP", 2, 4, 0⟩),
  (0xD4, ⟨"iNOP", 2, 4, 0⟩),
  (0xF4, ⟨"iNOP", 2, 4, 0⟩),
  (0x0C, ⟨"iNOP", 3, 4, 0⟩),
  (0x1C, ⟨"iNOP", 3, 4, 1⟩),
  (0x3C, ⟨"iNOP", 3, 4, 1⟩),
  (0x5C, ⟨"iNOP", 3, 4, 1⟩),
  (0x7C, ⟨"iNOP", 3, 4, 1⟩),
  (0xDC, ⟨"iNOP", 3, 4, 1⟩),
  (0xFC, ⟨"iNOP", 3, 4, 1⟩),
  (0x02, ⟨"iJAM", 1, 0, 0⟩),
  (0x12, ⟨"iJAM", 1, 0, 0⟩),
  (0x22, ⟨"iJAM", 1, 0, 0⟩),
  (0x32, ⟨"iJAM", 1, 0, 0⟩),
  (0x42, ⟨"iJAM", 1, 0, 0⟩),
  (0x52, ⟨"iJAM", 1, 0, 0⟩),
  (0x62, ⟨"iJAM", 1, 0, 0⟩),
  (0x72, ⟨"iJAM", 1, 0, 0⟩),
  (0x92, ⟨"iJAM", 1, 0, 0⟩),
  (0xB2, ⟨"iJAM", 1, 0, 0⟩),
  (0xD2, ⟨"iJAM", 1, 0, 0⟩),
  (0xF2, ⟨"iJAM", 1, 0, 0⟩)]

/-- opcodes6502.py `opcodes`: the full table. -/
def opcodes : List (Nat × Instr) :=
  opcodesPart0 ++ opcodesPart1 ++ opcodesPart2 ++ opcodesPart3 ++ opcodesPart4

/-- cpu.py `class CPU`: registers and clock.  Python ints are unbounded
and the source never masks `pc` or `sp` on update, so both are `Int`
(the stack pointer really can reach -1, see `CPU.stack_push`). -/
structure CPU where
  bus : Bus
  sp : Int
  pc : Int
  acc : Int
  x : Int
  y : Int
  cycles : Int
  flag : Flag

/-- cpu.py `CPU.reset_vector`:
`mem.read(0xFFFC) + (mem.read(0xFFFD) << 8)`. -/
def CPU.reset_vector (c : CPU) : Option Int := do
  let lo ← c.bus.read 0xFFFC
  let hi ← c.bus.read 0xFFFD
  pure ((lo : Int) + ((hi <<< 8 : Nat) : Int))

/-- cpu.py `CPU.irq_vector`. -/
def CPU.irq_vector (c : CPU) : Option Int := do
  let lo ← c.bus.read 0xFFFE
  let hi ← c.bus.read 0xFFFF
  pure ((lo : Int) + ((hi <<< 8 : Nat) : Int))

/-- cpu.py `CPU.nmi_vector`. -/
def CPU.nmi_vector (c : CPU) : Option Int := do
  let lo ← c.bus.read 0xFFFA
  let hi ← c.bus.read 0xFFFB
  pure ((lo : Int) + ((hi <<< 8 : Nat) : Int))

/-- cpu.py `CPU.__init__` with the class-attribute defaults
(`sp = 0xFD`, `acc = x = y = 0`, `cycles = 0`, a fresh `Flag()` whose
`enabled_flags` is `INIT_FLAGS[:]`, a fresh `PPU()`), and
`pc = reset_vector()`. -/
def CPU.new (mem : Nat → Nat) (is_mirror : Bool) : Option CPU :=
  let c0 : CPU :=
    { bus := ⟨mem, is_mirror, PPU.init⟩,
      sp := 0xFD, pc := 0, acc := 0, x := 0, y := 0, cycles := 0,
      flag := ⟨Flag.INIT_FLAGS⟩ }
  do
    let v ← c0.reset_vector
    pure { c0 with pc := v }

/-- cpu.py `CPU.stack_push`: raises when `sp < 0`, otherwise writes
`val % 0x100` at `0x100 + sp` and decrements `sp` (without wrapping). -/
def CPU.stack_push (c : CPU) (val : Int) : Option CPU :=
  if c.sp < 0 then none
  else some
    { c with
      bus := c.bus.write ((0x100 + c.sp).toNat) ((val % 0x100).toNat),
      sp := c.sp - 1 }

/-- cpu.py `CPU.stack_pop`: raises when `sp == 0xFF`, otherwise
increments `sp` and reads `0x100 + sp`. -/
def CPU.stack_pop (c : CPU) : Option (CPU × Nat) :=
  if c.sp = 0xFF then none
  else
    match c.bus.read ((0x100 + (c.sp + 1)).toNat) with
    | none => none
    | some v => some ({ c with sp := c.sp + 1 }, v)

/-- cpu.py `CPU.instruction_NOP`. -/
def CPU.instruction_NOP (c : CPU) (instr : Instr) : CPU :=
  { c with pc := c.pc + instr.len, cycles := c.cycles + instr.cyc }

/-- cpu.py `CPU.instruction_INX`.  After `x %= 0x100` the register is
non-negative, so Python `x & 0x80` is `x.toNat &&& 0x80`. -/
def CPU.instruction_INX (c : CPU) (instr : Instr) : CPU :=
  let flag := (c.flag.clear Flag.N).clear Flag.Z
  let x := (c.x + 1) % 0x100
  let flag := if x = 0 then flag.set Flag.Z else flag
  let flag := if x.toNat &&& 0x80 ≠ 0 then flag.set Flag.N else flag
  { c with x := x, flag := flag,
           pc := c.pc + instr.len, cycles := c.cycles + instr.cyc }

/-- cpu.py `CPU.instruction_BEQ`: when Z is set, the sign-extended
operand is added to `pc + instr[1]`, one cycle is always added and
`instr[3]` more when `page_num(self.pc) != page_num(new_pc)` (the page
of the PRE-instruction `pc`, with `page_num` dividing by 0xFF). -/
def CPU.instruction_BEQ (c : CPU) (instr : Instr) (addr : Int) : CPU :=
  let add_cycles : Int := instr.cyc
  let new_pc := c.pc + instr.len
  if c.flag.isset Flag.Z then
    let new_pc := new_pc + signed_byte_to_int addr.toNat 8
    let add_cycles := add_cycles + 1
    let add_cycles :=
      if page_num c.pc ≠ page_num new_pc then add_cycles + instr.cross
      else add_cycles
    { c with pc := new_pc, cycles := c.cycles + add_cycles }
  else
    { c with pc := new_pc, cycles := c.cycles + add_cycles }

/-- cpu.py `CPU.instruction_PHP`: push `get_byte() | Flag.B`. -/
def CPU.instruction_PHP (c : CPU) (instr : Instr) : Option CPU := do
  let c1 ← c.stack_push ((c.flag.get_byte ||| Flag.B : Nat) : Int)
  pure { c1 with pc := c1.pc + instr.len, cycles := c1.cycles + instr.cyc }

/-- cpu.py `CPU.instruction_PLP`: `set_byte(stack_pop() & ~Flag.B)`. -/
def CPU.instruction_PLP (c : CPU) (instr : Instr) : Option CPU := do
  let (c1, v) ← c.stack_pop
  pure { c1 with flag := Flag.set_byte (pyAndNot v Flag.B),
                 pc := c1.pc + instr.len, cycles := c1.cycles + instr.cyc }

/-- cpu.py `CPU.instruction_RTI`: pop flags (`& ~Flag.B`), then pc low,
then pc high; `set_byte` the flags; pc from the popped bytes. -/
def CPU.instruction_RTI (c : CPU) (instr : Instr) : Option CPU := do
  let (c1, v) ← c.stack_pop
  let flags := pyAndNot v Flag.B
  let (c2, lo) ← c1.stack_pop
  let (c3, hi) ← c2.stack_pop
  pure { c3 with flag := Flag.set_byte flags,
                 pc := ((lo + (hi <<< 8) : Nat) : Int),
                 cycles := c3.cycles + instr.cyc }

/-- cpu.py `CPU.instruction_BRK`: `tostack = pc + instr[1] + 2`; push
its high byte (Python `>> 8` on an int is floor division by 2^8) and
low byte (`& 0xFF` is `% 0x100`), push `get_byte() | Flag.B`, then SET
the B flag (not I), and return the NMI (not IRQ) vector as the new pc. -/
def CPU.instruction_BRK (c : CPU) (instr : Instr) : Option CPU := do
  let tostack := c.pc + instr.len + 2
  let c1 ← c.stack_push (Int.fdiv tostack 256)
  let c2 ← c1.stack_push (tostack % 0x100)
  let c3 ← c2.stack_push ((c2.flag.get_byte ||| Flag.B : Nat) : Int)
  let c4 : CPU := { c3 with flag := c3.flag.set Flag.B }
  let v ← c4.nmi_vector
  pure { c4 with pc := v, cycles := c4.cycles + instr.cyc }

/-- cpu.py `CPU.instruction_LDA`, translated for all its addressing
modes.  Operands assembled by `CPU.run` are non-negative, and every
intermediate address is reduced mod 0x100 / 0x10000 before a memory
access, so the `.toNat` conversions at the read sites are exact. -/
def CPU.instruction_LDA (c : CPU) (byte : Nat) (instr : Instr) (addr : Int) :
    Option CPU := do
  let flag := (c.flag.clear Flag.N).clear Flag.Z
  let addr := if byte = 0xB5 ∨ byte = 0xBD ∨ byte = 0xA1 then
      (if byte = 0xB5 then (addr + c.x) % 0x100 else addr + c.x)
    else addr
  let addr := if byte = 0xB9 then addr + c.y else addr
  let addr ← if byte = 0xA1 then do
      let lower ← c.bus.read ((addr % 0x100).toNat)
      let upper ← c.bus.read (((addr + 1) % 0x100).toNat)
      pure (((upper <<< 8) + lower : Nat) : Int)
    else pure addr
  let addr ← if byte = 0xB1 then do
      let lower ← c.bus.read ((addr % 0x100).toNat)
      let upper ← c.bus.read (((addr + 1) % 0x100).toNat)
      pure ((((upper <<< 8) + lower : Nat) : Int) + c.y)
    else pure addr
  let data ← if byte ≠ 0xA9 then do
      let v ← c.bus.read ((addr % 0x10000).toNat)
      pure ((v : Nat) : Int)
    else pure addr
  let acc := data
  let flag := if acc = 0 then flag.set Flag.Z else flag
  let flag := if acc ≥ 128 then flag.set Flag.N else flag
  pure { c with acc := acc, flag := flag,
                pc := c.pc + instr.len,
                cycles := c.cycles + instr.cyc +
                  (instr.cross : Int) *
                    (if page_num c.pc ≠ page_num addr then 1 else 0) }

/-- cpu.py `CPU.run` handler dispatch
(`getattr(self, "instruction_" + instr[0], ...)`), restricted to the
handlers embedded above; every other mnemonic is modelled as the
`instruction_not_implemented` exception (`none`). -/
def CPU.dispatch (c : CPU) (opbyte : Nat) (instr : Instr) (data : Int) :
    Option CPU :=
  match instr.mnemonic with
  | "NOP" => some (c.instruction_NOP instr)
  | "INX" => some (c.instruction_INX instr)
  | "BEQ" => some (c.instruction_BEQ instr data)
  | "LDA" => c.instruction_LDA opbyte instr data
  | "PHP" => c.instruction_PHP instr
  | "PLP" => c.instruction_PLP instr
  | "RTI" => c.instruction_RTI instr
  | "BRK" => c.instruction_BRK instr
  | _ => none

/-- cpu.py `CPU.run` epilogue:
`for _ in range(self.cycles - cur_cycles): self.ppu.run(self)` — ONE
`PPU.run` call per iteration, i.e. per elapsed CPU cycle. -/
def CPU.ppu_catchup : Nat → CPU → Option CPU
  | 0, c => some c
  | n + 1, c => do
      let p ← c.bus.ppu.run
      CPU.ppu_catchup n { c with bus := { c.bus with ppu := p } }

/-- cpu.py `CPU.run`: fetch the opcode at `pc` (raising on an unknown
byte), read the `instr[1] - 1` operand bytes, assemble them
little-endian, raise (`Exception("die")`) if the mnemonic is `BRK`,
dispatch to the handler which yields the new `pc` and `cycles`, and
finally let the PPU catch up once per elapsed CPU cycle. -/
def CPU.run (c : CPU) : Option CPU := do
  let cur_cycles := c.cycles
  let opbyte ← c.bus.read c.pc.toNat
  let instr ← opcodes.lookup opbyte
  let bytes ← (List.range (instr.len - 1)).mapM
    (fun i => c.bus.read ((c.pc + 1 + (i : Int)).toNat))
  let data : Int := bytes.foldr (fun b acc => (b : Int) + 256 * acc) 0
  if instr.mnemonic = "BRK" then none
  else do
    let c1 ← c.dispatch opbyte instr data
    CPU.ppu_catchup (c1.cycles - cur_cycles).toNat c1

/-! ### Helper lemmas about `Flag.set_byte` -/

/-- `&&&` by a mask below 256 only sees the low 8 bits. -/
lemma and_mask_mod256 (b m : Nat) (h : m < 256) : b % 256 &&& m = b &&& m := by
  apply Nat.eq_of_testBit_eq
  intro j
  rw [Nat.testBit_and, Nat.testBit_and]
  have h256 : (256 : Nat) = 2 ^ 8 := by norm_num
  rw [h256, Nat.testBit_mod_two_pow]
  by_cases hj : j < 8
  · simp [hj]
  · have hm : Nat.testBit m j = false := by
      apply Nat.testBit_lt_two_pow
      calc m < 256 := h
        _ = 2 ^ 8 := h256
        _ ≤ 2 ^ j := Nat.pow_le_pow_right (by norm_num) (by omega)
    simp [hj, hm]

/-- `Flag.set_byte` only inspects the low 8 bits of its argument. -/
lemma set_byte_mod (b : Nat) : Flag.set_byte b = Flag.set_byte (b % 256) := by
  unfold Flag.set_byte
  rw [and_mask_mod256 b Flag.N (by decide), and_mask_mod256 b Flag.V (by decide),
    and_mask_mod256 b Flag.U (by decide), and_mask_mod256 b Flag.B (by decide),
    and_mask_mod256 b Flag.D (by decide), and_mask_mod256 b Flag.I (by decide),
    and_mask_mod256 b Flag.Z (by decide), and_mask_mod256 b Flag.C (by decide)]

set_option maxRecDepth 100000 in
/-- Exhaustive facts about `Flag.set_byte` on a byte-sized argument:
I and the reserved bit are always enabled afterwards, and the readable
byte is the argument with 0x24 forced on. -/
lemma set_byte_facts : ∀ r : Nat, r < 256 →
    (Flag.set_byte r).isset Flag.I = true ∧
    (Flag.set_byte r).isset Flag.U = true ∧
    (Flag.set_byte r).get_byte = (r ||| 0x24) ∧
    (Flag.set_byte r).get_byte &&& 0x24 = 0x24 := by decide

/-- After any `Flag.set_byte`, the I flag is enabled. -/
lemma set_byte_isset_I (b : Nat) : (Flag.set_byte b).isset Flag.I = true := by
  rw [set_byte_mod]
  exact (set_byte_facts (b % 256) (Nat.mod_lt _ (by norm_num))).1

/-- After any `Flag.set_byte`, the reserved flag is enabled. -/
lemma set_byte_isset_U (b : Nat) : (Flag.set_byte b).isset Flag.U = true := by
  rw [set_byte_mod]
  exact (set_byte_facts (b % 256) (Nat.mod_lt _ (by norm_num))).2.1

/-- After any `Flag.set_byte`, the readable status has I and reserved set. -/
lemma set_byte_forces24 (b : Nat) : (Flag.set_byte b).get_byte &&& 0x24 = 0x24 := by
  rw [set_byte_mod]
  exact (set_byte_facts (b % 256) (Nat.mod_lt _ (by norm_num))).2.2.2

/-! ### Claim theorems -/

/-- **C10.** After every `Flag.set_byte(b)` (hence after every PLP and
every RTI, which both load the flags through `set_byte`), the I flag
(0x04) and the reserved flag (0x20) read as set regardless of `b`; no
PLP or RTI can leave the interrupt-disable flag cleared. -/
theorem c10_set_byte_forces_I_and_reserved :
    (∀ b : Nat, (Flag.set_byte b).isset Flag.I = true ∧
       (Flag.set_byte b).isset Flag.U = true ∧
       (Flag.set_byte b).get_byte &&& 0x24 = 0x24) ∧
    (∀ (c : CPU) (i : Instr),
       (Option.map (fun s => s.flag.isset Flag.I) (c.instruction_PLP i)).getD true
         = true) ∧
    (∀ (c : CPU) (i : Instr),
       (Option.map (fun s => s.flag.isset Flag.I) (c.instruction_RTI i)).getD true
         = true) := by
  refine ⟨fun b => ⟨set_byte_isset_I b, set_byte_isset_U b, set_byte_forces24 b⟩, ?_, ?_⟩
  · intro c i
    rcases h : c.stack_pop with _ | ⟨c1, v⟩
    · simp [CPU.instruction_PLP, h]
    · simp [CPU.instruction_PLP, h, set_byte_isset_I]
  · intro c i
    rcases h1 : c.stack_pop with _ | ⟨c1, v⟩
    · simp [CPU.instruction_RTI, h1]
    · rcases h2 : c1.stack_pop with _ | ⟨c2, lo⟩
      · simp [CPU.instruction_RTI, h1, h2]
      · rcases h3 : c2.stack_pop with _ | ⟨c3, hi⟩
        · simp [CPU.instruction_RTI, h1, h2, h3]
        · simp [CPU.instruction_RTI, h1, h2, h3, set_byte_isset_I]

/-- **C7.** FALSE as stated: `Memory.read` maps a mirrored address into
the PPU register range but then forwards the ORIGINAL address to
`PPU.handle_read`, which only answers for 0x2002; so reading the
PPUSTATUS mirror 0x200A yields Python `None` while reading 0x2002
yields the status byte — the two reads are never equal. -/
theorem c7_ppustatus_mirror_read_differs (mem : Nat → Nat) (mir : Bool) (p : PPU) :
    Bus.read ⟨mem, mir, p⟩ 0x2002 = some p.status ∧
    Bus.read ⟨mem, mir, p⟩ 0x200A = none := by
  constructor <;> simp [Bus.read, Bus.map_byte, REGISTERS, PPU.handle_read]

/-- **C8.** A write at or above 0x8000 returns before touching anything:
the whole bus (memory array and PPU) is unchanged, so a subsequent read
at the same address returns the pre-existing ROM value. -/
theorem c8_rom_write_suppressed (b : Bus) (a d : Nat) (h : 0x8000 ≤ a) :
    Bus.write b a d = b ∧ Bus.read (Bus.write b a d) a = Bus.read b a := by
  have hw : Bus.write b a d = b := by
    unfold Bus.write
    rw [if_pos h]
  exact ⟨hw, by rw [hw]⟩

/-- An all-zero 64 KiB memory image. -/
def memZero : Nat → Nat := fun _ => 0

/-- A bus over the all-zero image, used as a concrete input. -/
def busZero : Bus := ⟨memZero, false, PPU.init⟩

/-- Witness for `c8_rom_write_suppressed` at the concrete ROM address
0x9000. -/
theorem c8_rom_write_suppressed_witness :
    0x8000 ≤ 0x9000 ∧
      (Bus.write busZero 0x9000 7 = busZero ∧
       Bus.read (Bus.write busZero 0x9000 7) 0x9000 = Bus.read busZero 0x9000) :=
  ⟨by decide, c8_rom_write_suppressed busZero 0x9000 7 (by decide)⟩

/-- **C4.** After `CPU.__init__` (reset): PC is the little-endian word
the bus yields at 0xFFFC/0xFFFD, SP = 0xFD, the readable status byte is
0x24 (I and reserved set), A = X = Y = 0 and the cycle counter is 0. -/
theorem c4_reset_state (mem : Nat → Nat) (mir : Bool) :
    ∃ c, CPU.new mem mir = some c ∧
      (∃ lo hi, Bus.read ⟨mem, mir, PPU.init⟩ 0xFFFC = some lo ∧
                Bus.read ⟨mem, mir, PPU.init⟩ 0xFFFD = some hi ∧
                c.pc = lo + 256 * hi) ∧
      c.sp = 0xFD ∧ c.flag.get_byte = 0x24 ∧
      c.acc = 0 ∧ c.x = 0 ∧ c.y = 0 ∧ c.cycles = 0 := by
  cases mir <;>
    refine ⟨_, rfl, ⟨_, _, rfl, rfl, ?_⟩, rfl, rfl, rfl, rfl, rfl, rfl⟩ <;>
    · show ((mem _ : Int) + ((_ <<< 8 : Nat) : Int)) = _
      rw [Nat.shiftLeft_eq]
      push_cast
      ring

/-- A memory image whose every byte is 0xEA, the NOP opcode. -/
def memNOP : Nat → Nat := fun _ => 0xEA

/-- A freshly reset CPU sitting on an endless field of NOPs. -/
def c1_cpu : CPU := ⟨⟨memNOP, false, PPU.init⟩, 0xFD, 0, 0, 0, 0, 0, ⟨Flag.INIT_FLAGS⟩⟩

set_option maxRecDepth 10000 in
/-- **C1.** FALSE as stated: one `CPU.run` step of the 2-cycle NOP
advances the CPU cycle counter by 2 but the PPU cycle counter also only
by 2, not by 3·2 = 6 — the source's catch-up loop invokes `PPU.run`
once per elapsed CPU cycle, not three times. -/
theorem c1_ppu_catchup_once_per_cycle :
    Option.map (fun c => (c.cycles, c.bus.ppu.cycles)) c1_cpu.run = some (2, 2) ∧
    ¬ Option.map (fun c => (c.cycles, c.bus.ppu.cycles)) c1_cpu.run = some (2, 6) := by
  decide

/-- Memory with NMI vector 0x1234 (0xFFFA/B) and IRQ vector 0x5678
(0xFFFE/F); every other byte 0, so the byte at pc = 0x8000 is the BRK
opcode 0x00. -/
def c2_mem : Nat → Nat := fun a =>
  if a = 0xFFFA then 0x34 else if a = 0xFFFB then 0x12
  else if a = 0xFFFE then 0x78 else if a = 0xFFFF then 0x56 else 0

/-- CPU at pc = 0x8000 over `c2_mem`, flags = only the reserved bit
(P = 0x20, I clear, B clear). -/
def c2_cpu : CPU := ⟨⟨c2_mem, false, PPU.init⟩, 0xFD, 0x8000, 0, 0, 0, 0, ⟨[Flag.U]⟩⟩

/-- opcodes6502.py entry for 0x00. -/
def c2_instr : Instr := ⟨"BRK", 1, 7, 0⟩

set_option maxRecDepth 10000 in
/-- **C2.** FALSE as stated: executing BRK from pc = 0x8000 pushes the
bytes of pc+3 = 0x8003 (0x80 then 0x03 — not pc+2), pushes P|B = 0x30,
then sets the B flag (I remains CLEAR), and loads pc from the NMI
vector 0xFFFA/B (0x1234), not the IRQ vector 0xFFFE/F (0x5678).
Moreover `CPU.run` raises (`Exception("die")`) before ever dispatching
a BRK, so the step function cannot execute it at all. -/
theorem c2_brk_behaviour :
    opcodes.lookup 0x00 = some c2_instr ∧
    Option.map
      (fun s => ((s.bus.read 0x1FD, s.bus.read 0x1FC, s.bus.read 0x1FB),
                 (s.flag.isset Flag.I, s.flag.isset Flag.B), (s.pc, s.sp)))
      (c2_cpu.instruction_BRK c2_instr) =
      some ((some 0x80, some 0x03, some 0x30), (false, true), (0x1234, 0xFA)) ∧
    (c2_cpu.run).isNone = true := by
  decide

/-- Memory holding 0x42 at 0x0100 and 0 elsewhere. -/
def c6_mem : Nat → Nat := fun a => if a = 0x0100 then 0x42 else 0

/-- CPU with pc = 0 (page 0 under the source's `page_num`). -/
def c6_cpu : CPU := ⟨⟨c6_mem, false, PPU.init⟩, 0xFD, 0, 0, 0, 0, 0, ⟨Flag.INIT_FLAGS⟩⟩

/-- Same CPU but with pc = 0x0100; only the program counter differs. -/
def c6_cpu2 : CPU := ⟨⟨c6_mem, false, PPU.init⟩, 0xFD, 0x0100, 0, 0, 0, 0, ⟨Flag.INIT_FLAGS⟩⟩

/-- opcodes6502.py entry for 0xBD (LDA absolute,X). -/
def c6_instr : Instr := ⟨"LDA", 3, 4, 1⟩

/-- **C6.** Partly true, partly FALSE: for LDA 0xBD with op16 = 0x0100
and X = 0 the datum is indeed read from (op16+X) & 0xFFFF = 0x0100
(acc becomes 0x42), but the page-cross penalty is NOT governed by
`(op16 & 0xFF) + X > 0xFF` (which is false here) and is NOT independent
of PC: with pc = 0 the source adds the penalty (cycles 0+4+1 = 5,
because `page_num` compares pc//0xFF = 0 with 0x0100//0xFF = 1), while
the identical access from pc = 0x0100 costs only 4. -/
theorem c6_lda_absx_page_cross :
    opcodes.lookup 0xBD = some c6_instr ∧
    Option.map (fun s => (s.acc, s.cycles))
      (c6_cpu.instruction_LDA 0xBD c6_instr 0x0100) = some (0x42, 5) ∧
    Option.map (fun s => (s.acc, s.cycles))
      (c6_cpu2.instruction_LDA 0xBD c6_instr 0x0100) = some (0x42, 4) := by
  decide

/-! ### Stack round-trip machinery (C3) -/

/-- Reading back a stack-region address just written: addresses in
[0x100, 0x1FF] map to themselves, are not PPU registers and lie below
0x8000, so the write lands in the array and the read returns
`data % 0x100`. -/
lemma stack_read_write (b : Bus) (a v : Nat) (h1 : 0x100 ≤ a) (h2 : a ≤ 0x1FF) :
    (b.write a v).read a = some (v % 0x100) := by
  have hmap : ∀ bb : Bus, bb.map_byte a = a := by
    intro bb
    unfold Bus.map_byte
    rw [if_pos (by omega : a ≤ 0x1FFF)]
    exact Nat.mod_eq_of_lt (by omega)
  have hreg : a ∉ REGISTERS := by
    intro hmem
    simp only [REGISTERS, List.mem_cons, List.not_mem_nil, or_false] at hmem
    rcases hmem with rfl | rfl | rfl | rfl | rfl | rfl | rfl | rfl | rfl <;> omega
  simp only [Bus.write, Bus.read, hmap, if_neg (by omega : ¬ 0x8000 ≤ a), if_neg hreg]
  simp

/-- One PHP step with stack room: pushes `P | B` and decrements SP. -/
lemma php_step (c : CPU) (i : Instr) (h : 0 ≤ c.sp) :
    c.instruction_PHP i = some
      { c with
        bus := c.bus.write ((0x100 + c.sp).toNat)
          ((((c.flag.get_byte ||| Flag.B : Nat) : Int) % 0x100).toNat),
        sp := c.sp - 1, pc := c.pc + i.len, cycles := c.cycles + i.cyc } := by
  unfold CPU.instruction_PHP CPU.stack_push
  rw [if_neg (not_lt.mpr h)]
  rfl

/-- One PLP step when the pop succeeds and yields `w`. -/
lemma plp_step (c : CPU) (i : Instr) (w : Nat) (hsp : ¬ c.sp = 0xFF)
    (hr : c.bus.read ((0x100 + (c.sp + 1)).toNat) = some w) :
    c.instruction_PLP i = some
      { c with sp := c.sp + 1, flag := Flag.set_byte (pyAndNot w Flag.B),
               pc := c.pc + i.len, cycles := c.cycles + i.cyc } := by
  unfold CPU.instruction_PLP CPU.stack_pop
  rw [if_neg hsp, hr]
  rfl

set_option maxRecDepth 100000 in
/-- The byte observable after `set_byte ((r | B) & ~B)` — the PHP/PLP
round trip on a status byte `r` — is `r` with B cleared and I and the
reserved bit forced on; B itself ends up disabled. -/
lemma set_byte_php_plp : ∀ r : Nat, r < 256 →
    (Flag.set_byte (pyAndNot (r ||| 16) 16)).get_byte = (pyAndNot r 16 ||| 36) ∧
    (Flag.set_byte (pyAndNot (r ||| 16) 16)).isset Flag.B = false := by
  decide

/-- **C3 (amended).** PHP followed by PLP does NOT restore P exactly:
the byte read back is the old P with the B bit cleared and the I and
reserved bits forced on (`(P & ~0x10) | 0x24`); I reads as set and B as
clear afterwards regardless of their prior values, and SP is restored. -/
theorem c3_php_plp_amended (c : CPU) (i j : Instr)
    (h1 : 0 ≤ c.sp) (h2 : c.sp ≤ 0xFF) (hP : c.flag.get_byte < 0x100) :
    ∃ c2, ((c.instruction_PHP i).bind fun s => s.instruction_PLP j) = some c2 ∧
      c2.flag.get_byte = (pyAndNot c.flag.get_byte 0x10 ||| 0x24) ∧
      c2.flag.isset Flag.I = true ∧
      c2.flag.isset Flag.B = false ∧
      c2.sp = c.sp := by
  have h8 : (256 : Nat) = 2 ^ 8 := by norm_num
  have hP16 : c.flag.get_byte ||| Flag.B < 256 := by
    rw [h8]
    exact Nat.or_lt_two_pow (by omega) (by decide)
  have hval : ((((c.flag.get_byte ||| Flag.B : Nat) : Int) % 0x100).toNat) % 0x100
      = c.flag.get_byte ||| Flag.B := by
    have hc : ((c.flag.get_byte ||| Flag.B : Nat) : Int) % 0x100
        = (((c.flag.get_byte ||| Flag.B) % 0x100 : Nat) : Int) := by norm_cast
    rw [hc, Int.toNat_natCast, Nat.mod_eq_of_lt hP16, Nat.mod_eq_of_lt hP16]
  have hsz : (0x100 + (c.sp - 1 + 1) : Int) = 0x100 + c.sp := by ring
  have e1 := php_step c i h1
  set vPush : Nat := ((((c.flag.get_byte ||| Flag.B : Nat) : Int) % 0x100).toNat) with hv
  set cA : CPU := { c with
      bus := c.bus.write ((0x100 + c.sp).toNat) vPush,
      sp := c.sp - 1, pc := c.pc + i.len, cycles := c.cycles + i.cyc } with hA
  have hsp' : ¬ cA.sp = 0xFF := by
    rw [hA]
    show ¬ c.sp - 1 = 0xFF
    omega
  have hr : cA.bus.read ((0x100 + (cA.sp + 1)).toNat) = some (vPush % 0x100) := by
    rw [hA]
    show (c.bus.write ((0x100 + c.sp).toNat) vPush).read
        ((0x100 + (c.sp - 1 + 1)).toNat) = _
    rw [hsz]
    exact stack_read_write c.bus _ vPush (by omega) (by omega)
  have e2 := plp_step cA j (vPush % 0x100) hsp' hr
  have hflag : (Flag.set_byte (pyAndNot (vPush % 0x100) Flag.B)).get_byte
      = (pyAndNot c.flag.get_byte 0x10 ||| 0x24) := by
    rw [hv, hval]
    exact (set_byte_php_plp c.flag.get_byte (by omega)).1
  have hBf : (Flag.set_byte (pyAndNot (vPush % 0x100) Flag.B)).isset Flag.B = false := by
    rw [hv, hval]
    exact (set_byte_php_plp c.flag.get_byte (by omega)).2
  have hsp2 : cA.sp + 1 = c.sp := by
    rw [hA]
    show c.sp - 1 + 1 = c.sp
    ring
  exact ⟨_, by rw [e1, Option.some_bind]; exact e2, hflag,
    set_byte_isset_I _, hBf, hsp2⟩

/-- CPU whose status is only the reserved bit (P = 0x20): I and B clear. -/
def c3_cpu : CPU := ⟨busZero, 0xFD, 0, 0, 0, 0, 0, ⟨[Flag.U]⟩⟩

/-- opcodes6502.py entry for 0x08. -/
def c3_instrPHP : Instr := ⟨"PHP", 1, 3, 0⟩

/-- opcodes6502.py entry for 0x28. -/
def c3_instrPLP : Instr := ⟨"PLP", 1, 4, 0⟩

/-- **C3 (counterexample).** From P = 0x20 (I clear), PHP;PLP yields
P = 0x24, not the original 0x20: the I flag was forced on by the pull,
so P is NOT restored for every state. -/
theorem c3_php_plp_counterexample :
    opcodes.lookup 0x08 = some c3_instrPHP ∧
    opcodes.lookup 0x28 = some c3_instrPLP ∧
    c3_cpu.flag.get_byte = 0x20 ∧
    Option.map (fun s => s.flag.get_byte)
      ((c3_cpu.instruction_PHP c3_instrPHP).bind
        fun s => s.instruction_PLP c3_instrPLP) = some 0x24 ∧
    ¬ Option.map (fun s => s.flag.get_byte)
      ((c3_cpu.instruction_PHP c3_instrPHP).bind
        fun s => s.instruction_PLP c3_instrPLP) = some c3_cpu.flag.get_byte := by
  decide

/-- Witness for `c3_php_plp_amended` at the concrete state `c3_cpu`. -/
theorem c3_php_plp_amended_witness :
    ((0 : Int) ≤ c3_cpu.sp ∧ c3_cpu.sp ≤ 0xFF ∧ c3_cpu.flag.get_byte < 0x100) ∧
    ∃ c2, ((c3_cpu.instruction_PHP c3_instrPHP).bind
        fun s => s.instruction_PLP c3_instrPLP) = some c2 ∧
      c2.flag.get_byte = (pyAndNot c3_cpu.flag.get_byte 0x10 ||| 0x24) ∧
      c2.flag.isset Flag.I = true ∧
      c2.flag.isset Flag.B = false ∧
      c2.sp = c3_cpu.sp :=
  ⟨⟨by decide, by decide, by decide⟩,
   c3_php_plp_amended c3_cpu c3_instrPHP c3_instrPLP (by decide) (by decide) (by decide)⟩

set_option maxRecDepth 40000 in
/-- `signed_byte_to_int` on a byte is ordinary two's-complement
sign extension. -/
lemma signed_spec : ∀ a : Nat, a < 256 →
    signed_byte_to_int a 8 = (if a < 128 then (a : Int) else (a : Int) - 256) := by
  decide

/-- **C5 (amended).** A taken BEQ sets pc to `pc + instr.len` plus the
sign-extended offset, and adds `base + 1` cycles plus the table's
page-cross extra exactly when `pc // 0xFF` differs from `target // 0xFF`
— the source compares floor-division-by-255 "pages" of the
PRE-instruction pc against the target, not 256-byte pages of the
post-instruction pc. -/
theorem c5_beq_taken_amended (c : CPU) (i : Instr) (a : Nat)
    (hz : c.flag.isset Flag.Z = true) (ha : a < 256) :
    (c.instruction_BEQ i (a : Int)).pc =
      c.pc + i.len + (if a < 128 then (a : Int) else (a : Int) - 256) ∧
    (c.instruction_BEQ i (a : Int)).cycles =
      c.cycles + i.cyc + 1 +
        (if Int.fdiv c.pc 0xFF
            = Int.fdiv (c.pc + i.len + (if a < 128 then (a : Int) else (a : Int) - 256)) 0xFF
         then 0 else (i.cross : Int)) := by
  have hs : signed_byte_to_int ((a : Int)).toNat 8
      = (if a < 128 then (a : Int) else (a : Int) - 256) := by
    rw [Int.toNat_natCast]
    exact signed_spec a ha
  constructor
  · simp only [CPU.instruction_BEQ, hz, if_true, hs]
  · simp only [CPU.instruction_BEQ, hz, if_true, page_num, hs]
    by_cases hq : Int.fdiv c.pc 0xFF
        = Int.fdiv (c.pc + i.len + (if a < 128 then (a : Int) else (a : Int) - 256)) 0xFF
    · simp [hq]
      ring
    · simp [hq]
      ring

/-- CPU at pc = 0x01FE with the Z flag set (P = 0x26). -/
def c5_cpu : CPU := ⟨busZero, 0xFD, 0x01FE, 0, 0, 0, 0, ⟨[Flag.U, Flag.I, Flag.Z]⟩⟩

/-- opcodes6502.py entry for 0xF0. -/
def c5_instr : Instr := ⟨"BEQ", 2, 2, 1⟩

/-- **C5 (counterexample).** BEQ at pc = 0x01FE with offset 0x02 and Z
set lands on 0x0202 but adds only 3 cycles (2 base + 1 taken, no cross:
0x01FE//0xFF = 2 = 0x0202//0xFF), not the 4 the claim asserts. -/
theorem c5_beq_cycles_counterexample :
    opcodes.lookup 0xF0 = some c5_instr ∧
    c5_cpu.flag.isset Flag.Z = true ∧
    (c5_cpu.instruction_BEQ c5_instr 0x02).pc = 0x0202 ∧
    (c5_cpu.instruction_BEQ c5_instr 0x02).cycles = c5_cpu.cycles + 3 ∧
    ¬ (c5_cpu.instruction_BEQ c5_instr 0x02).cycles = c5_cpu.cycles + 4 := by
  decide

/-- Witness for `c5_beq_taken_amended` at the concrete state `c5_cpu`. -/
theorem c5_beq_taken_amended_witness :
    (c5_cpu.instruction_BEQ c5_instr ((0x02 : Nat) : Int)).pc = 0x0202 ∧
    (c5_cpu.instruction_BEQ c5_instr ((0x02 : Nat) : Int)).cycles = 3 := by
  have h := c5_beq_taken_amended c5_cpu c5_instr 0x02 (by decide) (by decide)
  constructor
  · rw [h.1]
    decide
  · rw [h.2]
    decide

/-- CPU with SP = 0 and pc = 0xFFFF, both about to leave their nominal
8/16-bit ranges. -/
def c9_cpu : CPU := ⟨busZero, 0, 0xFFFF, 0, 0, 0, 0, ⟨Flag.INIT_FLAGS⟩⟩

/-- opcodes6502.py entry for 0xEA. -/
def c9_instr : Instr := ⟨"NOP", 1, 2, 0⟩

/-- **C9 (counterexample).** A push at SP = 0 leaves SP = −1 (outside
[0, 255]; no wrap to 0xFF), and a NOP at pc = 0xFFFF leaves
pc = 0x10000 (not 16-bit): SP and pc updates are NOT masked to width. -/
theorem c9_sp_pc_not_masked_counterexample :
    opcodes.lookup 0xEA = some c9_instr ∧
    Option.map (fun s => s.sp) (c9_cpu.stack_push 0x42) = some (-1) ∧
    ¬ Option.map (fun s => s.sp) (c9_cpu.stack_push 0x42) = some 0xFF ∧
    (c9_cpu.instruction_NOP c9_instr).pc = 0x10000 ∧
    ¬ (c9_cpu.instruction_NOP c9_instr).pc ≤ 0xFFFF := by
  decide

/-- **C9 (amended).** A successful push decrements SP by one with no
wrap; a NOP advances pc by the instruction length with no 16-bit mask;
8-bit register updates such as INX do mask their register to [0, 255]. -/
theorem c9_register_masking_amended (c : CPU) (v : Int) (i : Instr) (h : 0 ≤ c.sp) :
    Option.map (fun s => s.sp) (c.stack_push v) = some (c.sp - 1) ∧
    (c.instruction_NOP i).pc = c.pc + i.len ∧
    (c.instruction_INX i).x = (c.x + 1) % 256 ∧
    0 ≤ (c.instruction_INX i).x ∧ (c.instruction_INX i).x < 256 := by
  have hx : (c.instruction_INX i).x = (c.x + 1) % 256 := rfl
  refine ⟨?_, rfl, hx, ?_, ?_⟩
  · unfold CPU.stack_push
    rw [if_neg (not_lt.mpr h)]
    rfl
  · rw [hx]
    exact Int.emod_nonneg _ (by norm_num)
  · rw [hx]
    exact Int.emod_lt_of_pos _ (by norm_num)

/-- Witness for `c9_register_masking_amended` at the concrete state
`c9_cpu`. -/
theorem c9_register_masking_amended_witness :
    (0 : Int) ≤ c9_cpu.sp ∧
    (Option.map (fun s => s.sp) (c9_cpu.stack_push 0x42) = some (c9_cpu.sp - 1) ∧
     (c9_cpu.instruction_NOP c9_instr).pc = c9_cpu.pc + c9_instr.len ∧
     (c9_cpu.instruction_INX c9_instr).x = (c9_cpu.x + 1) % 256 ∧
     0 ≤ (c9_cpu.instruction_INX c9_instr).x ∧
     (c9_cpu.instruction_INX c9_instr).x < 256) :=
  ⟨by decide, c9_register_masking_amended c9_cpu 0x42 c9_instr (by decide)⟩

end NES
